import Mathlib

/-!
Verification development for src/task-a/task-a.py, a script that derives an
S3 bucket name from the caller account and region, ensures the bucket exists,
lists running EC2 instances, writes them to a semicolon-delimited CSV file and
uploads it.  The provider SDK (boto3) is modelled by explicit outcome values:
each call that can raise a botocore ClientError is represented by an input
describing what the provider would answer.  Logging calls are abstracted away
except where a property talks about them, in which case a boolean flag records
that the log statement ran.  Python exceptions are modelled with Except: a
ClientError travels as Except.error of a ClientError value, and the TypeError
raised by iterating None travels as Except.error () in a separate channel.
-/

/-- A botocore ClientError, reduced to the numeric error code the script
extracts via int(ce.response['Error']['Code']) on line 77. -/
structure ClientError where
  code : Nat

/-- Outcome of s3.meta.client.head_bucket(Bucket=bucket_name) (line 73):
either it returns bucket metadata, or it raises a ClientError. -/
inductive HeadBucketResult where
  | ok : HeadBucketResult
  | clientError : ClientError → HeadBucketResult

/-- Lines 55-61.  The Python body is the f-string ec2-{account_id}-{region}-list. -/
def get_bucket_name (account_id : String) (region : String) : String :=
  "ec2-" ++ account_id ++ "-" ++ region ++ "-list"

/-- Lines 64-85.  Python locals: exists (here b_exists) and allow_access both
start False; a successful probe sets both True; the except ClientError clause
catches every ClientError, sets exists on 403, only logs on 404, and does
nothing for any other code; the function returns exists and allow_access.
A result Except.error would mean a ClientError escaped the function. -/
def is_bucket_exists (probe : HeadBucketResult) : Except ClientError Bool :=
  match probe with
  | .ok =>
      -- exists = True; allow_access = True
      .ok (true && true)
  | .clientError ce =>
      -- except ClientError as ce:
      let error_code := ce.code
      let b_exists : Bool := decide (error_code = 403)
      -- error_code == 404 only logs; any other code falls through silently
      let allow_access : Bool := false
      .ok (b_exists && allow_access)

/-- Lines 88-98.  Returns the number of s3.create_bucket calls issued;
create_result is the outcome create_bucket would have.  The surrounding
try/except catches any ClientError from the probe or the creation and only
logs a warning, so an Except.error result would mean an uncaught error. -/
def create_not_exists_bucket (probe : HeadBucketResult)
    (create_result : Except ClientError Unit) : Except ClientError Nat :=
  match is_bucket_exists probe with
  | .error _ =>
      -- a ClientError escaping is_bucket_exists would be caught and logged here
      .ok 0
  | .ok b =>
      if !b then
        -- s3.create_bucket(Bucket=bucket_name): one creation call
        match create_result with
        | .ok _ => .ok 1
        | .error _ => .ok 1   -- except ClientError: logger.warning, swallowed
      else
        .ok 0

/-- An EC2 instance tag: a dict with keys Key and Value (lines 106-108). -/
structure Tag where
  key : String
  value : String

/-- The backing image of an instance, as read by ec2.Image(instance.image_id):
description may be absent (None) and name is the fallback (lines 139-142). -/
structure ImageData where
  description : Option String
  name : String

/-- One instance as seen by the listing loop: boto3 reports tags as None when
the instance has no tags at all, so the tag list is optional. -/
structure InstanceData where
  tags : Option (List Tag)
  instance_id : String
  image : ImageData

/-- The two-column record stored under RunInfo.Name and RunInfo.Ami
(lines 48-52 and 143-144). -/
structure Record where
  name : String
  ami : String

/-- The for-loop of get_ec2_name over a concrete tag list (lines 106-108):
first tag whose Key is Name wins; falling off the loop returns None. -/
def get_ec2_name_loop : List Tag → Option String
  | [] => none
  | tag :: rest =>
      if tag.key = "Name" then some tag.value else get_ec2_name_loop rest

/-- Lines 101-108.  Iterating instance.tags when tags is None raises a
TypeError, which is not a ClientError; that is the Except.error () case. -/
def get_ec2_name (inst : InstanceData) : Except Unit (Option String) :=
  match inst.tags with
  | none => .error ()
  | some tags => .ok (get_ec2_name_loop tags)

/-- The loop body of get_ec2_list for one instance (lines 134-145):
display name from get_ec2_name with instance_id fallback on None, image
description with image name fallback on None. -/
def instance_record (inst : InstanceData) : Except Unit Record :=
  match get_ec2_name inst with
  | .error e => .error e
  | .ok instance_name_opt =>
      let instance_name :=
        match instance_name_opt with
        | none => inst.instance_id
        | some n => n
      let instance_ami :=
        match inst.image.description with
        | none => inst.image.name
        | some d => d
      .ok { name := instance_name, ami := instance_ami }

/-- One step of iterating ec2.instances.filter(...): either the provider
yields the next running instance, or the iteration raises a ClientError. -/
inductive Ec2Event where
  | inst : InstanceData → Ec2Event
  | clientErr : ClientError → Ec2Event

/-- Result of get_ec2_list: the collected records plus whether the
except ClientError branch ran logger.warning (line 147). -/
structure ListOutcome where
  records : List Record
  warning_logged : Bool

/-- The try-block loop of get_ec2_list (lines 132-148) with running_istances
accumulated in reverse.  A ClientError event is caught: the warning is logged
and the records collected so far are returned.  A TypeError from
instance_record is not a ClientError and escapes as Except.error (). -/
def get_ec2_list_loop : List Ec2Event → List Record → Except Unit ListOutcome
  | [], acc => .ok { records := acc.reverse, warning_logged := false }
  | Ec2Event.clientErr _ :: _, acc =>
      .ok { records := acc.reverse, warning_logged := true }
  | Ec2Event.inst i :: rest, acc =>
      match instance_record i with
      | .error e => .error e
      | .ok r => get_ec2_list_loop rest (r :: acc)

/-- Lines 120-148: running_istances starts empty, the loop fills it. -/
def get_ec2_list (events : List Ec2Event) : Except Unit ListOutcome :=
  get_ec2_list_loop events []

/-- csv quoting with quotechar a double quote under QUOTE_ALL (line 159):
every field is wrapped in double quotes and an embedded quotechar is doubled. -/
def csv_quote (field : String) : String :=
  "\"" ++ field.replace "\"" "\"\"" ++ "\""

/-- One writer.writerow call (lines 161-162): the Name field, the delimiter
";", the Ami field, then the csv default line terminator CRLF. -/
def csv_writerow (r : Record) : String :=
  csv_quote r.name ++ ";" ++ csv_quote r.ami ++ "\r\n"

/-- The writing loop of write_local_file (lines 160-162): the file contents
as the ordered list of writerow outputs appended one at a time. -/
def write_local_file_loop : List Record → List String → List String
  | [], file => file
  | r :: rest, file => write_local_file_loop rest (file ++ [csv_writerow r])

/-- Lines 151-162: open for writing starts from an empty file. -/
def write_local_file (running_istances : List Record) : List String :=
  write_local_file_loop running_istances []

/-- Outcome of s3_client.upload_file (line 190).  boto3's managed transfer
catches the provider ClientError internally and re-raises
boto3.exceptions.S3UploadFailedError, which is a plain Boto3Error and NOT a
ClientError; so the failure case is its own constructor, distinct from the
ClientError channel used by the direct API calls. -/
inductive UploadResult where
  | ok : UploadResult
  | s3UploadFailed : UploadResult

/-- The provider-side outcomes of one run of the command (lines 172-195):
the two duplicated sts get_caller_identity calls (lines 173 and 179), the
head_bucket probe, the create_bucket outcome, the instance-listing events and
the s3_client.upload_file outcome. -/
structure AwsWorld where
  sts1 : Except ClientError String
  sts2 : Except ClientError String
  probe : HeadBucketResult
  create_result : Except ClientError Unit
  ec2_events : List Ec2Event
  upload : UploadResult

/-- Observable effects of one run of create_running_ec2_list. -/
structure RunResult where
  create_calls : Nat
  upload_attempted : Bool
  file_deleted : Bool
  error_logged : Bool

/-- An exception that escapes the command's except ClientError handler:
the TypeError from iterating tags None inside get_ec2_list, or the
S3UploadFailedError re-raised by upload_file.  Neither is a ClientError. -/
inductive UncaughtError where
  | typeError : UncaughtError
  | s3UploadFailed : UncaughtError

/-- Lines 165-195: the body of the click command.  The whole body sits in one
try/except ClientError whose handler runs logger.error; a ClientError raised
by any step therefore stops the run with error_logged true.  The local CSV
file exists right after write_local_file, so on a successful upload the
os.path.exists check passes and os.remove deletes it.  The second component
records an exception that is not a ClientError escaping the command uncaught:
the TypeError from get_ec2_list, or the S3UploadFailedError from upload_file;
on those paths logger.error never runs and no later line is reached, so an
upload failure leaves the file undeleted with nothing logged. -/
def create_running_ec2_list (region : String) (w : AwsWorld) :
    RunResult × Option UncaughtError :=
  match w.sts1 with
  | .error _ =>
      ({ create_calls := 0, upload_attempted := false,
         file_deleted := false, error_logged := true }, none)
  | .ok _ =>
  match w.sts2 with
  | .error _ =>
      ({ create_calls := 0, upload_attempted := false,
         file_deleted := false, error_logged := true }, none)
  | .ok account_id =>
  let _s3_bucket_name := get_bucket_name account_id region
  match create_not_exists_bucket w.probe w.create_result with
  | .error _ =>
      ({ create_calls := 0, upload_attempted := false,
         file_deleted := false, error_logged := true }, none)
  | .ok n =>
  match get_ec2_list w.ec2_events with
  | .error _ =>
      ({ create_calls := n, upload_attempted := false,
         file_deleted := false, error_logged := false },
       some UncaughtError.typeError)
  | .ok outcome =>
  let _csv_rows := write_local_file outcome.records
  match w.upload with
  | .s3UploadFailed =>
      ({ create_calls := n, upload_attempted := true,
         file_deleted := false, error_logged := false },
       some UncaughtError.s3UploadFailed)
  | .ok =>
      ({ create_calls := n, upload_attempted := true,
         file_deleted := true, error_logged := false }, none)

/-- Concrete instance whose image has a present but empty description. -/
def empty_desc_instance : InstanceData :=
  { tags := some [], instance_id := "i-0abc123",
    image := { description := some "", name := "custom-ami" } }

/-- Concrete instance whose image has an absent (None) description. -/
def absent_desc_instance : InstanceData :=
  { tags := some [], instance_id := "i-1",
    image := { description := none, name := "base-ami" } }

/-- Concrete instance carrying a Name tag. -/
def tagged_instance : InstanceData :=
  { tags := some [{ key := "Name", value := "web-1" }], instance_id := "i-9",
    image := { description := some "Ubuntu 22.04", name := "ubuntu" } }

/-- Concrete instance with tags absent altogether (boto3 None). -/
def untagged_none_instance : InstanceData :=
  { tags := none, instance_id := "i-2",
    image := { description := none, name := "plain" } }

/-- A world whose upload step fails with an S3UploadFailedError. -/
def upload_fails_world : AwsWorld :=
  { sts1 := Except.ok "111122223333", sts2 := Except.ok "111122223333",
    probe := HeadBucketResult.clientError { code := 404 },
    create_result := Except.ok (),
    ec2_events := [Ec2Event.inst tagged_instance],
    upload := UploadResult.s3UploadFailed }

theorem is_bucket_exists_on_client_error (ce : ClientError) :
    is_bucket_exists (HeadBucketResult.clientError ce) = Except.ok false := by
  simp [is_bucket_exists]

theorem create_not_exists_bucket_total (probe : HeadBucketResult)
    (create_result : Except ClientError Unit) :
    ∃ n, create_not_exists_bucket probe create_result = Except.ok n := by
  unfold create_not_exists_bucket
  cases h : is_bucket_exists probe with
  | error e => exact ⟨0, rfl⟩
  | ok b =>
      cases b with
      | false => cases create_result with
          | ok u => exact ⟨1, rfl⟩
          | error e => exact ⟨1, rfl⟩
      | true => exact ⟨0, rfl⟩

/-- C1: the claim says a 403 probe outcome leads to zero create_bucket calls,
but is_bucket_exists returns exists AND allow_access, which is false on a 403,
so create_not_exists_bucket issues one creation call there. -/
theorem bucket_probe_403_still_creates :
    create_not_exists_bucket (HeadBucketResult.clientError { code := 403 })
      (Except.ok ()) = Except.ok 1 := rfl

/-- C2 counterexample: a probe ClientError with code 500 (neither 403 nor 404)
does not propagate out of is_bucket_exists; it is caught by the except
ClientError clause and the function returns false. -/
theorem bucket_probe_swallows_code_500 :
    is_bucket_exists (HeadBucketResult.clientError { code := 500 }) =
      Except.ok false := rfl

/-- C2 (amended): every ClientError raised by the probe, whatever its numeric
code, is caught inside is_bucket_exists, which then returns false; and the
creation step also never lets a ClientError escape. -/
theorem bucket_probe_catches_every_client_error :
    ∀ (c : Nat) (probe : HeadBucketResult) (cr : Except ClientError Unit),
      is_bucket_exists (HeadBucketResult.clientError { code := c }) =
        Except.ok false ∧
      ∃ n, create_not_exists_bucket probe cr = Except.ok n := by
  intro c probe cr
  exact ⟨is_bucket_exists_on_client_error _, create_not_exists_bucket_total probe cr⟩

/-- C3: a 404 probe outcome yields exactly one creation call and a successful
probe yields zero, as claimed; but a 403 probe outcome also yields one
creation call, refuting the claimed "in no other classification". -/
theorem bucket_creation_call_counts :
    create_not_exists_bucket (HeadBucketResult.clientError { code := 404 })
        (Except.ok ()) = Except.ok 1 ∧
    create_not_exists_bucket HeadBucketResult.ok (Except.ok ()) = Except.ok 0 ∧
    create_not_exists_bucket (HeadBucketResult.clientError { code := 403 })
        (Except.ok ()) = Except.ok 1 :=
  ⟨rfl, rfl, rfl⟩

/-- C10: the bucket name is the stated concatenation for all inputs; being a
Lean function, get_bucket_name is pure and total, so reapplying it to the same
inputs yields the same string. -/
theorem get_bucket_name_formula (account_id : String) (region : String) :
    get_bucket_name account_id region =
      "ec2-" ++ account_id ++ "-" ++ region ++ "-list" := rfl

theorem instance_record_some (i : InstanceData) (ts : List Tag)
    (h : i.tags = some ts) :
    instance_record i = Except.ok
      { name := (match get_ec2_name_loop ts with
                 | none => i.instance_id
                 | some n => n),
        ami := (match i.image.description with
                | none => i.image.name
                | some d => d) } := by
  unfold instance_record get_ec2_name
  rw [h]

theorem get_ec2_name_loop_unique (t : Tag) :
    ∀ ts : List Tag, t ∈ ts → t.key = "Name" →
      (∀ t2 ∈ ts, t2.key = "Name" → t2 = t) →
      get_ec2_name_loop ts = some t.value := by
  intro ts
  induction ts with
  | nil =>
      intro hmem _ _
      exact absurd hmem (List.not_mem_nil t)
  | cons t0 rest ih =>
      intro hmem hk huniq
      by_cases h0 : t0.key = "Name"
      · have ht0 : t0 = t := huniq t0 (List.mem_cons_self t0 rest) h0
        subst ht0
        simp [get_ec2_name_loop, h0]
      · have hmem2 : t ∈ rest := by
          rcases List.mem_cons.mp hmem with h | h
          · exact absurd (h ▸ hk) h0
          · exact h
        simp only [get_ec2_name_loop, h0, if_false]
        exact ih hmem2 hk (fun t2 h2 k2 => huniq t2 (List.mem_cons_of_mem _ h2) k2)

theorem get_ec2_name_loop_missing :
    ∀ ts : List Tag, (∀ t ∈ ts, t.key ≠ "Name") →
      get_ec2_name_loop ts = none := by
  intro ts
  induction ts with
  | nil => intro _; rfl
  | cons t0 rest ih =>
      intro h
      have h0 := h t0 (List.mem_cons_self t0 rest)
      simp only [get_ec2_name_loop, h0, if_false]
      exact ih (fun t2 h2 => h t2 (List.mem_cons_of_mem _ h2))

theorem write_local_file_loop_eq :
    ∀ (rs : List Record) (file : List String),
      write_local_file_loop rs file = file ++ rs.map csv_writerow := by
  intro rs
  induction rs with
  | nil => intro file; simp [write_local_file_loop]
  | cons r rest ih =>
      intro file
      simp [write_local_file_loop, ih]

theorem get_ec2_list_loop_type_error :
    ∀ (events : List Ec2Event) (acc : List Record),
      (∀ e ∈ events, ∃ i, e = Ec2Event.inst i) →
      (∃ i, Ec2Event.inst i ∈ events ∧ i.tags = none) →
      get_ec2_list_loop events acc = Except.error () := by
  intro events
  induction events with
  | nil =>
      intro acc _ hnone
      obtain ⟨i, hi, _⟩ := hnone
      exact absurd hi (List.not_mem_nil _)
  | cons e rest ih =>
      intro acc hinst hnone
      obtain ⟨i0, he⟩ := hinst e (List.mem_cons_self e rest)
      subst he
      cases h0 : i0.tags with
      | none =>
          simp [get_ec2_list_loop, instance_record, get_ec2_name, h0]
      | some ts =>
          obtain ⟨r, hrec⟩ : ∃ r, instance_record i0 = Except.ok r :=
            ⟨_, instance_record_some i0 ts h0⟩
          obtain ⟨j, hj, hjt⟩ := hnone
          have hjrest : Ec2Event.inst j ∈ rest := by
            rcases List.mem_cons.mp hj with h | h
            · injection h with h2
              subst h2
              rw [h0] at hjt
              exact Option.noConfusion hjt
            · exact h
          have hinst2 : ∀ e2 ∈ rest, ∃ i, e2 = Ec2Event.inst i :=
            fun e2 h2 => hinst e2 (List.mem_cons_of_mem _ h2)
          simp only [get_ec2_list_loop, hrec]
          exact ih (r :: acc) hinst2 ⟨j, hjrest, hjt⟩

theorem get_ec2_list_loop_split (ce : ClientError) (rest : List Ec2Event) :
    ∀ (pre : List Ec2Event) (acc : List Record),
      (∀ e ∈ pre, ∃ i ts, e = Ec2Event.inst i ∧ i.tags = some ts) →
      ∃ l, get_ec2_list_loop (pre ++ Ec2Event.clientErr ce :: rest) acc =
             Except.ok { records := l, warning_logged := true } ∧
           get_ec2_list_loop pre acc =
             Except.ok { records := l, warning_logged := false } := by
  intro pre
  induction pre with
  | nil =>
      intro acc _
      exact ⟨acc.reverse, rfl, rfl⟩
  | cons e pre2 ih =>
      intro acc hok
      obtain ⟨i0, ts, he, ht⟩ := hok e (List.mem_cons_self e pre2)
      subst he
      obtain ⟨r, hrec⟩ : ∃ r, instance_record i0 = Except.ok r :=
        ⟨_, instance_record_some i0 ts ht⟩
      have hok2 : ∀ e2 ∈ pre2, ∃ i ts2, e2 = Ec2Event.inst i ∧ i.tags = some ts2 :=
        fun e2 h2 => hok e2 (List.mem_cons_of_mem _ h2)
      obtain ⟨l, h1, h2⟩ := ih (r :: acc) hok2
      refine ⟨l, ?_, ?_⟩
      · simp only [List.cons_append, get_ec2_list_loop, hrec]
        exact h1
      · simp only [get_ec2_list_loop, hrec]
        exact h2

/-- C4 counterexample: for an image whose description is present but empty,
the record keeps the empty description; it does not fall back to the image
name "custom-ami", refuting the claim for empty descriptions. -/
theorem empty_image_description_kept :
    instance_record empty_desc_instance =
      Except.ok { name := "i-0abc123", ami := "" } ∧
    empty_desc_instance.image.name = "custom-ami" ∧
    ("" : String) ≠ "custom-ami" :=
  ⟨rfl, rfl, by decide⟩

/-- C4 (amended): the record uses the image name as the image-description
field exactly when the description is absent (None); any present description,
the empty string included, is used as-is. -/
theorem image_description_fallback (i : InstanceData) (r : Record)
    (h : instance_record i = Except.ok r) :
    (i.image.description = none → r.ami = i.image.name) ∧
    (∀ d, i.image.description = some d → r.ami = d) := by
  cases hts : i.tags with
  | none =>
      simp [instance_record, get_ec2_name, hts] at h
  | some ts =>
      rw [instance_record_some i ts hts] at h
      injection h with h2
      constructor
      · intro hd
        rw [← h2]
        simp [hd]
      · intro d hd
        rw [← h2]
        simp [hd]

/-- C4 witness: instantiating the fallback theorem at a concrete instance
whose image description is absent. -/
theorem image_description_fallback_witness :
    ({ name := "i-1", ami := "base-ami" } : Record).ami =
      absent_desc_instance.image.name :=
  (image_description_fallback absent_desc_instance
      { name := "i-1", ami := "base-ami" } rfl).1 rfl

/-- C5: for a listed instance whose tag collection is present, the record
display name is the value of the tag with key Name when such a tag exists
(unique, as AWS tag keys are), and the instance identifier when no tag has
key Name. -/
theorem display_name_selection (i : InstanceData) (ts : List Tag) (r : Record)
    (hts : i.tags = some ts) (hr : instance_record i = Except.ok r) :
    (∀ t, t ∈ ts → t.key = "Name" →
        (∀ t2 ∈ ts, t2.key = "Name" → t2 = t) → r.name = t.value) ∧
    ((∀ t ∈ ts, t.key ≠ "Name") → r.name = i.instance_id) := by
  rw [instance_record_some i ts hts] at hr
  injection hr with h2
  constructor
  · intro t hmem hk huniq
    rw [← h2]
    simp [get_ec2_name_loop_unique t ts hmem hk huniq]
  · intro hnone
    rw [← h2]
    simp [get_ec2_name_loop_missing ts hnone]

/-- C5 witness: instantiating the selection theorem at a concrete instance
carrying the single tag Name=web-1. -/
theorem display_name_selection_witness :
    ({ name := "web-1", ami := "Ubuntu 22.04" } : Record).name =
      Tag.value { key := "Name", value := "web-1" } := by
  refine (display_name_selection tagged_instance
      [{ key := "Name", value := "web-1" }]
      { name := "web-1", ami := "Ubuntu 22.04" } rfl rfl).1
      { key := "Name", value := "web-1" } ?_ rfl ?_
  · exact List.mem_singleton.mpr rfl
  · intro t2 h2 _
    simpa using h2

/-- C6: when no provider error interrupts the listing, an instance whose tag
collection is absent (boto3 tags None) makes get_ec2_list fail with the
TypeError from iterating None; that error is not a ClientError, so it escapes
the listing error handler instead of being caught. -/
theorem missing_tags_escape_handler (events : List Ec2Event)
    (hinst : ∀ e ∈ events, ∃ i, e = Ec2Event.inst i)
    (hnone : ∃ i, Ec2Event.inst i ∈ events ∧ i.tags = none) :
    get_ec2_list events = Except.error () :=
  get_ec2_list_loop_type_error events [] hinst hnone

/-- C6 witness: a single running instance with tags None makes the listing
raise rather than return. -/
theorem missing_tags_escape_handler_witness :
    get_ec2_list [Ec2Event.inst untagged_none_instance] = Except.error () :=
  missing_tags_escape_handler [Ec2Event.inst untagged_none_instance]
    (fun e he => ⟨untagged_none_instance, by simpa using he⟩)
    ⟨untagged_none_instance, List.mem_singleton.mpr rfl, rfl⟩

/-- C7: the report writer emits exactly one row per record, in the order of
the input sequence and with no header row; each row is the double-quoted
display name, a semicolon, the double-quoted image description, then the csv
CRLF terminator (embedded double quotes are doubled by the quoting). -/
theorem report_writer_rows (rs : List Record) :
    write_local_file rs =
      rs.map (fun r =>
        ("\"" ++ r.name.replace "\"" "\"\"" ++ "\"") ++ ";" ++
        ("\"" ++ r.ami.replace "\"" "\"\"" ++ "\"") ++ "\r\n") := by
  have h := write_local_file_loop_eq rs []
  simp only [List.nil_append] at h
  rw [write_local_file, h]
  rfl

/-- C8: if the listing raises a ClientError after an error-free prefix of
instances, get_ec2_list catches it, logs the warning, and returns exactly the
records that prefix alone would produce, instead of propagating the error. -/
theorem listing_error_returns_partial (pre rest : List Ec2Event)
    (ce : ClientError)
    (hok : ∀ e ∈ pre, ∃ i ts, e = Ec2Event.inst i ∧ i.tags = some ts) :
    ∃ l, get_ec2_list (pre ++ Ec2Event.clientErr ce :: rest) =
           Except.ok { records := l, warning_logged := true } ∧
         get_ec2_list pre =
           Except.ok { records := l, warning_logged := false } :=
  get_ec2_list_loop_split ce rest pre [] hok

/-- C8 witness: one good instance followed by a provider error yields the
caught-and-logged partial result. -/
theorem listing_error_returns_partial_witness :
    ∃ l, get_ec2_list
            ([Ec2Event.inst tagged_instance] ++
              Ec2Event.clientErr { code := 500 } :: []) =
           Except.ok { records := l, warning_logged := true } ∧
         get_ec2_list [Ec2Event.inst tagged_instance] =
           Except.ok { records := l, warning_logged := false } :=
  listing_error_returns_partial [Ec2Event.inst tagged_instance] []
    { code := 500 }
    (fun e he => ⟨tagged_instance, [{ key := "Name", value := "web-1" }],
      by simpa using he, rfl⟩)

/-- C9 counterexample: in a concrete run whose upload fails, the
S3UploadFailedError raised by upload_file escapes the except ClientError
handler uncaught and logger.error never runs (error_logged is false), so the
claimed "caught at the top-level handler and logged as an error" is false of
the program; the file is indeed not deleted, but only because the run died. -/
theorem upload_failure_escapes_handler_cex :
    create_running_ec2_list "us-east-1" upload_fails_world =
      ({ create_calls := 1, upload_attempted := true,
         file_deleted := false, error_logged := false },
       some UncaughtError.s3UploadFailed) := rfl

/-- C9 (amended): when the upload fails, boto3's upload_file re-raises the
provider error as S3UploadFailedError, which is not a ClientError, so it
escapes the command's top-level except handler uncaught and logger.error does
not run; the deletion step after the upload is never reached, so the local
report file is not deleted. -/
theorem upload_failure_uncaught (region : String) (w : AwsWorld)
    (a1 a2 : String) (outcome : ListOutcome)
    (h1 : w.sts1 = Except.ok a1) (h2 : w.sts2 = Except.ok a2)
    (hl : get_ec2_list w.ec2_events = Except.ok outcome)
    (hu : w.upload = UploadResult.s3UploadFailed) :
    ∃ n, create_running_ec2_list region w =
      ({ create_calls := n, upload_attempted := true,
         file_deleted := false, error_logged := false },
       some UncaughtError.s3UploadFailed) := by
  obtain ⟨n, hn⟩ := create_not_exists_bucket_total w.probe w.create_result
  refine ⟨n, ?_⟩
  simp only [create_running_ec2_list, h1, h2, hn, hl, hu]

/-- C9 witness: instantiating the amended theorem at the concrete world whose
upload fails. -/
theorem upload_failure_uncaught_witness :
    ∃ n, create_running_ec2_list "us-east-1" upload_fails_world =
      ({ create_calls := n, upload_attempted := true,
         file_deleted := false, error_logged := false },
       some UncaughtError.s3UploadFailed) :=
  upload_failure_uncaught "us-east-1" upload_fails_world
    "111122223333" "111122223333"
    { records := [{ name := "web-1", ami := "Ubuntu 22.04" }],
      warning_logged := false }
    rfl rfl rfl rfl
